import Mathlib

/-!
Shallow embedding of `src/we/math/transformationmatrix.js` (the
`we.math.TransformationMatrix` class of the webglearth repository) over the
real numbers, together with the vector primitives of the vendored
`goog.math.Vec3` library that `lookAt` uses.  JavaScript numbers are
idealized as real numbers; `Math.cos`, `Math.sin` and `Math.sqrt` become
`Real.cos`, `Real.sin` and `Real.sqrt`.
-/

namespace WE

/-- 3-component vector with `x`, `y`, `z` fields, as `goog.math.Vec3`. -/
structure Vec3 where
  x : ℝ
  y : ℝ
  z : ℝ

/-- `goog.math.Vec3.prototype.subtract`: componentwise difference. -/
noncomputable def Vec3.sub (a b : Vec3) : Vec3 :=
  ⟨a.x - b.x, a.y - b.y, a.z - b.z⟩

/-- `goog.math.Vec3.cross`: the 3D cross product. -/
noncomputable def Vec3.cross (a b : Vec3) : Vec3 :=
  ⟨a.y * b.z - a.z * b.y, a.z * b.x - a.x * b.z, a.x * b.y - a.y * b.x⟩

/-- `goog.math.Vec3.prototype.magnitude`: Euclidean length. -/
noncomputable def Vec3.magnitude (v : Vec3) : ℝ :=
  Real.sqrt (v.x * v.x + v.y * v.y + v.z * v.z)

/-- `goog.math.Vec3.prototype.normalize`: scale every component by the
reciprocal of the magnitude. -/
noncomputable def Vec3.normalize (v : Vec3) : Vec3 :=
  ⟨v.x * (1 / v.magnitude), v.y * (1 / v.magnitude), v.z * (1 / v.magnitude)⟩

/-- The translation operation matrix built inline in `translate`
(identity with the top three entries of the last column set to x, y, z). -/
noncomputable def translationMat (x y z : ℝ) : Matrix (Fin 4) (Fin 4) ℝ :=
  !![1, 0, 0, x;
     0, 1, 0, y;
     0, 0, 1, z;
     0, 0, 0, 1]

/-- The scaling operation matrix built inline in `scale`. -/
noncomputable def scalingMat (x y z : ℝ) : Matrix (Fin 4) (Fin 4) ℝ :=
  !![x, 0, 0, 0;
     0, y, 0, 0;
     0, 0, z, 0;
     0, 0, 0, 1]

/-- The rotation operation matrix built inline in `rotate`, where `c` and `s`
stand for `Math.cos(angle)` and `Math.sin(angle)`. -/
noncomputable def rotationMat (c s x y z : ℝ) : Matrix (Fin 4) (Fin 4) ℝ :=
  !![x * x * (1 - c) + c, x * y * (1 - c) - z * s, x * z * (1 - c) + y * s, 0;
     y * x * (1 - c) + z * s, y * y * (1 - c) + c, y * z * (1 - c) - x * s, 0;
     z * x * (1 - c) - y * s, z * y * (1 - c) + x * s, z * z * (1 - c) + c, 0;
     0, 0, 0, 1]

/-- The operation matrix built inline in `rotate010`. -/
noncomputable def rotation010Mat (c s : ℝ) : Matrix (Fin 4) (Fin 4) ℝ :=
  !![c, 0, s, 0;
     0, 1, 0, 0;
     -s, 0, c, 0;
     0, 0, 0, 1]

/-- The operation matrix built inline in `rotate100`. -/
noncomputable def rotation100Mat (c s : ℝ) : Matrix (Fin 4) (Fin 4) ℝ :=
  !![1, 0, 0, 0;
     0, c, -s, 0;
     0, s, c, 0;
     0, 0, 0, 1]

/-- The operation matrix built inline in `rotate001`. -/
noncomputable def rotation001Mat (c s : ℝ) : Matrix (Fin 4) (Fin 4) ℝ :=
  !![c, -s, 0, 0;
     s, c, 0, 0;
     0, 0, 1, 0;
     0, 0, 0, 1]

/-- The orientation matrix built inline in `lookAt` from the side vector, the
re-orthogonalized up vector and the forward vector. -/
noncomputable def lookAtOrientMat (side up fw : Vec3) : Matrix (Fin 4) (Fin 4) ℝ :=
  !![side.x, side.y, side.z, 0;
     up.x, up.y, up.z, 0;
     -fw.x, -fw.y, -fw.z, 0;
     0, 0, 0, 1]

/-- Instance state of `we.math.TransformationMatrix`.  `matrix_` is the
private field holding the accumulated 4×4 matrix, which every operation reads
and writes.  `matrix` models the distinct JavaScript property of that name
that the `lookAt` method assigns to (line 195 of the source); it does not
exist (`none`) until `lookAt` first runs. -/
structure TransformationMatrix where
  matrix_ : Matrix (Fin 4) (Fin 4) ℝ
  matrix : Option (Matrix (Fin 4) (Fin 4) ℝ)

namespace TransformationMatrix

/-- The constructor: `matrix_` starts as the 4×4 identity
(`goog.math.Matrix.createIdentityMatrix(4)`); no `matrix` property exists. -/
noncomputable def new : TransformationMatrix := ⟨1, none⟩

/-- `getStandardMatrix`: returns the internal matrix. -/
noncomputable def getStandardMatrix (t : TransformationMatrix) :
    Matrix (Fin 4) (Fin 4) ℝ := t.matrix_

/-- `loadIdentity`: re-assigns the 4×4 identity to `matrix_`. -/
noncomputable def loadIdentity (t : TransformationMatrix) : TransformationMatrix :=
  { t with matrix_ := 1 }

/-- `translate(x, y, z)`: right-multiplies `matrix_` by the translation
operation matrix. -/
noncomputable def translate (t : TransformationMatrix) (x y z : ℝ) :
    TransformationMatrix :=
  { t with matrix_ := t.matrix_ * translationMat x y z }

/-- `scale(x, y, z)`: right-multiplies `matrix_` by the scaling operation
matrix. -/
noncomputable def scale (t : TransformationMatrix) (x y z : ℝ) :
    TransformationMatrix :=
  { t with matrix_ := t.matrix_ * scalingMat x y z }

/-- `rotate(angle, x, y, z)`: computes `c = Math.cos(angle)`,
`s = Math.sin(angle)` and right-multiplies `matrix_` by the rotation
operation matrix. -/
noncomputable def rotate (t : TransformationMatrix) (angle x y z : ℝ) :
    TransformationMatrix :=
  { t with matrix_ := t.matrix_ * rotationMat (Real.cos angle) (Real.sin angle) x y z }

/-- `rotate010(angle)`: optimized rotation about (0, 1, 0). -/
noncomputable def rotate010 (t : TransformationMatrix) (angle : ℝ) :
    TransformationMatrix :=
  { t with matrix_ := t.matrix_ * rotation010Mat (Real.cos angle) (Real.sin angle) }

/-- `rotate100(angle)`: optimized rotation about (1, 0, 0). -/
noncomputable def rotate100 (t : TransformationMatrix) (angle : ℝ) :
    TransformationMatrix :=
  { t with matrix_ := t.matrix_ * rotation100Mat (Real.cos angle) (Real.sin angle) }

/-- `rotate001(angle)`: optimized rotation about (0, 0, 1). -/
noncomputable def rotate001 (t : TransformationMatrix) (angle : ℝ) :
    TransformationMatrix :=
  { t with matrix_ := t.matrix_ * rotation001Mat (Real.cos angle) (Real.sin angle) }

/-- `lookAt(eye, center, up)`: computes forward, side and re-orthogonalized
up vectors, assigns `this.matrix_.multiply(O)` to the property `this.matrix`
(NOT to the field `matrix_` — the source writes `this.matrix = ...` on
line 195), then calls `this.translate(-eye.x, -eye.y, -eye.z)`. -/
noncomputable def lookAt (t : TransformationMatrix) (eye center up : Vec3) :
    TransformationMatrix :=
  let fw := (center.sub eye).normalize
  let side := (fw.cross up).normalize
  let up2 := side.cross fw
  ({ t with matrix := some (t.matrix_ * lookAtOrientMat side up2 fw) }).translate
    (-eye.x) (-eye.y) (-eye.z)

end TransformationMatrix

/-- The element-copy loop of `getInverseMat3`: the top-left 3×3 submatrix of a
4×4 matrix. -/
noncomputable def submatrix3 (m : Matrix (Fin 4) (Fin 4) ℝ) :
    Matrix (Fin 3) (Fin 3) ℝ :=
  Matrix.of fun i j => m i.castSucc j.castSucc

/-- `goog.math.Matrix.prototype.getInverse` of the vendored matrix library on
a 3×3 matrix, modelled as the mathematical inverse: adjugate over
determinant. -/
noncomputable def mat3Inverse (m : Matrix (Fin 3) (Fin 3) ℝ) :
    Matrix (Fin 3) (Fin 3) ℝ :=
  m.det⁻¹ • m.adjugate

/-- `getInverseMat3()`: copies the top-left 3×3 entries of `matrix_` into a
fresh 3×3 matrix and returns that matrix's inverse. -/
noncomputable def TransformationMatrix.getInverseMat3 (t : TransformationMatrix) :
    Matrix (Fin 3) (Fin 3) ℝ :=
  mat3Inverse (submatrix3 t.matrix_)

/-- Spec-side definition: the Rodrigues rotation matrix exactly as the
specification lists its rows, with `c = cos θ` and `s = sin θ`, to be compared
with `rotationMat` taken from the source. -/
noncomputable def rodriguesMat (c s x y z : ℝ) : Matrix (Fin 4) (Fin 4) ℝ :=
  !![x^2*(1-c)+c, x*y*(1-c)-z*s, x*z*(1-c)+y*s, 0;
     y*x*(1-c)+z*s, y^2*(1-c)+c, y*z*(1-c)-x*s, 0;
     z*x*(1-c)-y*s, z*y*(1-c)+x*s, z^2*(1-c)+c, 0;
     0, 0, 0, 1]

/-- One mutating composition call on a `TransformationMatrix` instance. -/
inductive Op where
  | translate (x y z : ℝ)
  | scale (x y z : ℝ)
  | rotate (angle x y z : ℝ)
  | rotate010 (angle : ℝ)
  | rotate100 (angle : ℝ)
  | rotate001 (angle : ℝ)
  | lookAt (eye center up : Vec3)
  | loadIdentity

/-- Performs one call on the instance. -/
noncomputable def applyOp (t : TransformationMatrix) : Op → TransformationMatrix
  | .translate x y z => t.translate x y z
  | .scale x y z => t.scale x y z
  | .rotate a x y z => t.rotate a x y z
  | .rotate010 a => t.rotate010 a
  | .rotate100 a => t.rotate100 a
  | .rotate001 a => t.rotate001 a
  | .lookAt e c u => t.lookAt e c u
  | .loadIdentity => t.loadIdentity

/-- Performs a sequence of calls on the instance, in order. -/
noncomputable def applyOps (t : TransformationMatrix) (ops : List Op) :
    TransformationMatrix :=
  ops.foldl applyOp t

/-! Helper lemmas shared by the claim theorems. -/

lemma rotationMat_axis010 (c s : ℝ) : rotationMat c s 0 1 0 = rotation010Mat c s := by
  ext i j
  fin_cases i <;> fin_cases j <;>
    simp [-mul_eq_mul_left_iff, -mul_eq_zero, rotationMat, rotation010Mat,
      Matrix.vecHead, Matrix.vecTail] <;> try ring

lemma rotationMat_axis100 (c s : ℝ) : rotationMat c s 1 0 0 = rotation100Mat c s := by
  ext i j
  fin_cases i <;> fin_cases j <;>
    simp [-mul_eq_mul_left_iff, -mul_eq_zero, rotationMat, rotation100Mat,
      Matrix.vecHead, Matrix.vecTail] <;> try ring

lemma rotationMat_axis001 (c s : ℝ) : rotationMat c s 0 0 1 = rotation001Mat c s := by
  ext i j
  fin_cases i <;> fin_cases j <;>
    simp [-mul_eq_mul_left_iff, -mul_eq_zero, rotationMat, rotation001Mat,
      Matrix.vecHead, Matrix.vecTail] <;> try ring

/-- C3: `rotate(θ, x, y, z)` replaces the internal matrix with
`internal matrix × R`, `R` being Rodrigues' rotation matrix with
`c = cos θ`, `s = sin θ` (right-multiplication). -/
theorem rotate_is_rodrigues (t : TransformationMatrix) (θ x y z : ℝ) :
    (t.rotate θ x y z).matrix_ =
      t.matrix_ * rodriguesMat (Real.cos θ) (Real.sin θ) x y z := by
  show t.matrix_ * rotationMat (Real.cos θ) (Real.sin θ) x y z = _
  congr 1
  ext i j
  fin_cases i <;> fin_cases j <;>
    simp [-mul_eq_mul_left_iff, -mul_eq_mul_right_iff, -mul_eq_zero, rotationMat,
      rodriguesMat, Matrix.vecHead, Matrix.vecTail] <;> try ring

/-- C4: each specialized rotation produces exactly the same resulting state as
the general `rotate` called with the corresponding unit axis:
`rotate010 θ = rotate θ 0 1 0`, `rotate100 θ = rotate θ 1 0 0`,
`rotate001 θ = rotate θ 0 0 1`. -/
theorem rotate_optimized_equiv (t : TransformationMatrix) (θ : ℝ) :
    t.rotate010 θ = t.rotate θ 0 1 0 ∧
    t.rotate100 θ = t.rotate θ 1 0 0 ∧
    t.rotate001 θ = t.rotate θ 0 0 1 := by
  refine ⟨?_, ?_, ?_⟩ <;>
    simp only [TransformationMatrix.rotate010, TransformationMatrix.rotate100,
      TransformationMatrix.rotate001, TransformationMatrix.rotate,
      rotationMat_axis010, rotationMat_axis100, rotationMat_axis001]

lemma submatrix3_rotationMat (c s x y z : ℝ) :
    submatrix3 (rotationMat c s x y z) =
      !![x * x * (1 - c) + c, x * y * (1 - c) - z * s, x * z * (1 - c) + y * s;
         y * x * (1 - c) + z * s, y * y * (1 - c) + c, y * z * (1 - c) - x * s;
         z * x * (1 - c) - y * s, z * y * (1 - c) + x * s, z * z * (1 - c) + c] := by
  ext i j
  fin_cases i <;> fin_cases j <;> rfl

lemma rot3_transpose_mul_self (c s x y z : ℝ) (hc : c ^ 2 + s ^ 2 = 1)
    (hx : x ^ 2 + y ^ 2 + z ^ 2 = 1) :
    (submatrix3 (rotationMat c s x y z)).transpose * submatrix3 (rotationMat c s x y z) = 1 := by
  rw [submatrix3_rotationMat]
  ext i j
  fin_cases i <;> fin_cases j <;>
    simp [-mul_eq_mul_left_iff, -mul_eq_mul_right_iff, -mul_eq_zero,
      Matrix.mul_apply, Matrix.transpose_apply, Fin.sum_univ_three,
      Matrix.one_apply, Matrix.vecHead, Matrix.vecTail]
  · linear_combination (x^2 + s^2 - 2*c*x^2 + c^2*x^2) * hx + (1 - x^2) * hc
  · linear_combination (x*y - 2*c*x*y + c^2*x*y) * hx + (-(x*y)) * hc
  · linear_combination (x*z - 2*c*x*z + c^2*x*z) * hx + (-(x*z)) * hc
  · linear_combination (x*y - 2*c*x*y + c^2*x*y) * hx + (-(x*y)) * hc
  · linear_combination (y^2 + s^2 - 2*c*y^2 + c^2*y^2) * hx + (1 - y^2) * hc
  · linear_combination (y*z - 2*c*y*z + c^2*y*z) * hx + (-(y*z)) * hc
  · linear_combination (x*z - 2*c*x*z + c^2*x*z) * hx + (-(x*z)) * hc
  · linear_combination (y*z - 2*c*y*z + c^2*y*z) * hx + (-(y*z)) * hc
  · linear_combination (1 + z^2 - 2*c*z^2 - c^2 + c^2*z^2) * hx + (y^2 + x^2) * hc

lemma rot3_det_one (c s x y z : ℝ) (hc : c ^ 2 + s ^ 2 = 1)
    (hx : x ^ 2 + y ^ 2 + z ^ 2 = 1) :
    (submatrix3 (rotationMat c s x y z)).det = 1 := by
  rw [submatrix3_rotationMat, Matrix.det_fin_three]
  simp [-mul_eq_mul_left_iff, -mul_eq_mul_right_iff, -mul_eq_zero,
    Matrix.vecHead, Matrix.vecTail]
  linear_combination (s^2 + s^2*z^2 + s^2*y^2 + s^2*x^2 - c*s^2*z^2 - c*s^2*y^2
    - c*s^2*x^2 + c^2 - c^3) * hx + hc

/-- C5: for every angle θ and unit axis (x, y, z), the upper-left 3×3
submatrix of the operation matrix built by `rotate(θ, x, y, z)` is orthogonal
(transpose times itself is the identity) and has determinant 1. -/
theorem rotate_orthogonal (θ x y z : ℝ) (h : x ^ 2 + y ^ 2 + z ^ 2 = 1) :
    (submatrix3 (rotationMat (Real.cos θ) (Real.sin θ) x y z)).transpose *
        submatrix3 (rotationMat (Real.cos θ) (Real.sin θ) x y z) = 1 ∧
    (submatrix3 (rotationMat (Real.cos θ) (Real.sin θ) x y z)).det = 1 :=
  ⟨rot3_transpose_mul_self _ _ x y z (Real.cos_sq_add_sin_sq θ) h,
   rot3_det_one _ _ x y z (Real.cos_sq_add_sin_sq θ) h⟩

/-- Witness for C5 at θ = 0 and axis (0, 0, 1). -/
theorem rotate_orthogonal_witness :
    ((0 : ℝ) ^ 2 + 0 ^ 2 + 1 ^ 2 = 1) ∧
    ((submatrix3 (rotationMat (Real.cos 0) (Real.sin 0) 0 0 1)).transpose *
        submatrix3 (rotationMat (Real.cos 0) (Real.sin 0) 0 0 1) = 1 ∧
      (submatrix3 (rotationMat (Real.cos 0) (Real.sin 0) 0 0 1)).det = 1) :=
  ⟨by norm_num, rotate_orthogonal 0 0 0 1 (by norm_num)⟩

lemma mat3Inverse_eq_inv (m : Matrix (Fin 3) (Fin 3) ℝ) : mat3Inverse m = m⁻¹ := by
  rw [mat3Inverse, Matrix.inv_def, Ring.inverse_eq_inv]

lemma scalingMat222_mul_rotation001Mat (c s : ℝ) :
    scalingMat 2 2 2 * rotation001Mat c s =
      !![2 * c, 2 * -s, 0, 0;
         2 * s, 2 * c, 0, 0;
         0, 0, 2, 0;
         0, 0, 0, 1] := by
  ext i j
  fin_cases i <;> fin_cases j <;>
    simp [-mul_eq_mul_left_iff, -mul_eq_mul_right_iff, -mul_eq_zero,
      scalingMat, rotation001Mat, Matrix.mul_apply, Fin.sum_univ_four,
      Matrix.vecHead, Matrix.vecTail] <;> try ring

lemma det_submatrix3_scale_rot001 (c s : ℝ) (hc : s ^ 2 + c ^ 2 = 1) :
    (submatrix3 (scalingMat 2 2 2 * rotation001Mat c s)).det = 8 := by
  have hsub : submatrix3 (scalingMat 2 2 2 * rotation001Mat c s) =
      !![2 * c, 2 * -s, 0;
         2 * s, 2 * c, 0;
         0, 0, 2] := by
    rw [scalingMat222_mul_rotation001Mat]
    ext i j
    fin_cases i <;> fin_cases j <;> rfl
  rw [hsub, Matrix.det_fin_three]
  simp [-mul_eq_mul_left_iff, -mul_eq_mul_right_iff, -mul_eq_zero,
    Matrix.vecHead, Matrix.vecTail]
  linear_combination 8 * hc

/-- C6: whenever the top-left 3×3 submatrix of the internal matrix has
non-zero determinant, `getInverseMat3()` returns its inverse, so the
submatrix times the returned matrix is the 3×3 identity; in particular this
holds for the state composed as identity → scale(2,2,2) → rotate001(π/3). -/
theorem getInverseMat3_roundtrip :
    (∀ t : TransformationMatrix, (submatrix3 t.matrix_).det ≠ 0 →
        submatrix3 t.matrix_ * t.getInverseMat3 = 1) ∧
    submatrix3 ((TransformationMatrix.new.scale 2 2 2).rotate001
          (Real.pi / 3)).matrix_ *
        ((TransformationMatrix.new.scale 2 2 2).rotate001
          (Real.pi / 3)).getInverseMat3 = 1 := by
  have main : ∀ t : TransformationMatrix, (submatrix3 t.matrix_).det ≠ 0 →
      submatrix3 t.matrix_ * t.getInverseMat3 = 1 := by
    intro t h
    rw [TransformationMatrix.getInverseMat3, mat3Inverse_eq_inv]
    exact Matrix.mul_nonsing_inv _ (isUnit_iff_ne_zero.mpr h)
  refine ⟨main, main _ ?_⟩
  have hm : ((TransformationMatrix.new.scale 2 2 2).rotate001
        (Real.pi / 3)).matrix_ =
      scalingMat 2 2 2 * rotation001Mat (Real.cos (Real.pi / 3))
        (Real.sin (Real.pi / 3)) := by
    show (1 : Matrix (Fin 4) (Fin 4) ℝ) * scalingMat 2 2 2 *
        rotation001Mat (Real.cos (Real.pi / 3)) (Real.sin (Real.pi / 3)) = _
    rw [one_mul]
  rw [hm, det_submatrix3_scale_rot001 _ _ (Real.sin_sq_add_cos_sq (Real.pi / 3))]
  norm_num

/-- Witness for C6 on a fresh instance, whose 3×3 submatrix is the identity
with determinant 1. -/
theorem getInverseMat3_roundtrip_witness :
    (submatrix3 TransformationMatrix.new.matrix_).det ≠ 0 ∧
    submatrix3 TransformationMatrix.new.matrix_ *
      TransformationMatrix.new.getInverseMat3 = 1 := by
  have h1 : submatrix3 TransformationMatrix.new.matrix_ = 1 := by
    ext i j
    fin_cases i <;> fin_cases j <;> rfl
  have hd : (submatrix3 TransformationMatrix.new.matrix_).det ≠ 0 := by
    rw [h1]
    simp
  exact ⟨hd, getInverseMat3_roundtrip.1 TransformationMatrix.new hd⟩

/-- C7: `translate(x, y, z)` right-multiplies the internal matrix by
`T(x, y, z)`; starting from identity, `translate(1, 2, 3)` yields a matrix
whose last column's top three rows are `[1, 2, 3]` and whose upper-left 3×3 is
the identity. -/
theorem translate_spec :
    (∀ (t : TransformationMatrix) (x y z : ℝ),
        (t.translate x y z).matrix_ = t.matrix_ * translationMat x y z) ∧
    ((TransformationMatrix.new.translate 1 2 3).matrix_ 0 3 = 1 ∧
      (TransformationMatrix.new.translate 1 2 3).matrix_ 1 3 = 2 ∧
      (TransformationMatrix.new.translate 1 2 3).matrix_ 2 3 = 3) ∧
    submatrix3 (TransformationMatrix.new.translate 1 2 3).matrix_ = 1 := by
  have hm : (TransformationMatrix.new.translate 1 2 3).matrix_ =
      translationMat 1 2 3 := by
    show (1 : Matrix (Fin 4) (Fin 4) ℝ) * translationMat 1 2 3 = _
    rw [one_mul]
  refine ⟨fun t x y z => rfl, ⟨?_, ?_, ?_⟩, ?_⟩ <;> rw [hm]
  · simp [translationMat]
  · simp [translationMat]
  · simp [translationMat]
  · ext i j
    fin_cases i <;> fin_cases j <;> rfl

/-- C8: `scale(x, y, z)` right-multiplies the internal matrix by
`diag(x, y, z, 1)`; starting from identity, `scale(2, 3, 4)` yields exactly
`diag(2, 3, 4, 1)`. -/
theorem scale_spec :
    (∀ (t : TransformationMatrix) (x y z : ℝ),
        (t.scale x y z).matrix_ = t.matrix_ * scalingMat x y z) ∧
    (TransformationMatrix.new.scale 2 3 4).matrix_ = Matrix.diagonal ![2, 3, 4, 1] := by
  refine ⟨fun t x y z => rfl, ?_⟩
  show (1 : Matrix (Fin 4) (Fin 4) ℝ) * scalingMat 2 3 4 = _
  rw [one_mul]
  ext i j
  fin_cases i <;> fin_cases j <;>
    simp [-mul_eq_mul_left_iff, -mul_eq_zero, scalingMat, Matrix.diagonal,
      Matrix.vecHead, Matrix.vecTail]

/-- C9: a newly constructed `TransformationMatrix` holds exactly the 4×4
identity, and after any sequence of composition operations `loadIdentity`
restores the internal matrix to exactly the 4×4 identity. -/
theorem new_identity_and_loadIdentity_resets :
    TransformationMatrix.new.matrix_ = 1 ∧
    ∀ ops : List Op, ((applyOps TransformationMatrix.new ops).loadIdentity).matrix_ = 1 :=
  ⟨rfl, fun _ => rfl⟩

/-- C10: `rotate(θ, 0, 0, 0)` with the degenerate zero axis is accepted and
right-multiplies the internal matrix by `diag(cos θ, cos θ, cos θ, 1)`. -/
theorem rotate_zero_axis (t : TransformationMatrix) (θ : ℝ) :
    (t.rotate θ 0 0 0).matrix_ =
      t.matrix_ * Matrix.diagonal ![Real.cos θ, Real.cos θ, Real.cos θ, 1] := by
  show t.matrix_ * rotationMat (Real.cos θ) (Real.sin θ) 0 0 0 = _
  congr 1
  ext i j
  fin_cases i <;> fin_cases j <;>
    simp [-mul_eq_mul_left_iff, -mul_eq_zero, rotationMat, Matrix.diagonal,
      Matrix.vecHead, Matrix.vecTail] <;> try ring

lemma new_matrix_ : TransformationMatrix.new.matrix_ = 1 := rfl

lemma lookAt_matrix_field (t : TransformationMatrix) (eye center up : Vec3) :
    (t.lookAt eye center up).matrix =
      some (t.matrix_ * lookAtOrientMat
        ((center.sub eye).normalize.cross up).normalize
        (((center.sub eye).normalize.cross up).normalize.cross
          (center.sub eye).normalize)
        (center.sub eye).normalize) := rfl

lemma applyOp_matrix_congr (t₁ t₂ : TransformationMatrix)
    (h : t₁.matrix_ = t₂.matrix_) (o : Op) :
    (applyOp t₁ o).matrix_ = (applyOp t₂ o).matrix_ := by
  cases o <;>
    simp [applyOp, TransformationMatrix.translate, TransformationMatrix.scale,
      TransformationMatrix.rotate, TransformationMatrix.rotate010,
      TransformationMatrix.rotate100, TransformationMatrix.rotate001,
      TransformationMatrix.lookAt, TransformationMatrix.loadIdentity, h]

lemma applyOps_matrix_congr (ops : List Op) (t₁ t₂ : TransformationMatrix)
    (h : t₁.matrix_ = t₂.matrix_) :
    (applyOps t₁ ops).matrix_ = (applyOps t₂ ops).matrix_ := by
  induction ops generalizing t₁ t₂ with
  | nil => exact h
  | cons o rest ih => exact ih _ _ (applyOp_matrix_congr t₁ t₂ h o)

/-- C2: after `lookAt(eye, center, up)` the authoritative field `matrix_`
equals the previous internal matrix right-multiplied by `T(-eye)` only; the
orientation product is stored in the differently named `matrix` property and
never affects `matrix_` in any subsequent operation. -/
theorem lookAt_only_translates (t : TransformationMatrix) (eye center up : Vec3)
    (h1 : center ≠ eye)
    (h2 : (center.sub eye).normalize.cross up ≠ (⟨0, 0, 0⟩ : Vec3)) :
    (t.lookAt eye center up).matrix_ =
        t.matrix_ * translationMat (-eye.x) (-eye.y) (-eye.z) ∧
    (t.lookAt eye center up).matrix =
        some (t.matrix_ * lookAtOrientMat
          ((center.sub eye).normalize.cross up).normalize
          (((center.sub eye).normalize.cross up).normalize.cross
            (center.sub eye).normalize)
          (center.sub eye).normalize) ∧
    ∀ (t' : TransformationMatrix) (ops : List Op),
      t'.matrix_ = (t.lookAt eye center up).matrix_ →
        (applyOps t' ops).matrix_ = (applyOps (t.lookAt eye center up) ops).matrix_ :=
  ⟨rfl, rfl, fun _ ops h => applyOps_matrix_congr ops _ _ h⟩

/-- Witness for C2 on a fresh instance with eye = (0,0,0),
center = (-1,0,0), up = (0,1,0). -/
theorem lookAt_only_translates_witness :
    ((⟨-1, 0, 0⟩ : Vec3) ≠ (⟨0, 0, 0⟩ : Vec3)) ∧
    (((⟨-1, 0, 0⟩ : Vec3).sub ⟨0, 0, 0⟩).normalize.cross ⟨0, 1, 0⟩ ≠
      (⟨0, 0, 0⟩ : Vec3)) ∧
    ((TransformationMatrix.new.lookAt ⟨0, 0, 0⟩ ⟨-1, 0, 0⟩ ⟨0, 1, 0⟩).matrix_ =
        TransformationMatrix.new.matrix_ *
          translationMat (-(Vec3.mk 0 0 0).x) (-(Vec3.mk 0 0 0).y)
            (-(Vec3.mk 0 0 0).z) ∧
      (TransformationMatrix.new.lookAt ⟨0, 0, 0⟩ ⟨-1, 0, 0⟩ ⟨0, 1, 0⟩).matrix =
        some (TransformationMatrix.new.matrix_ * lookAtOrientMat
          (((⟨-1, 0, 0⟩ : Vec3).sub ⟨0, 0, 0⟩).normalize.cross ⟨0, 1, 0⟩).normalize
          ((((⟨-1, 0, 0⟩ : Vec3).sub ⟨0, 0, 0⟩).normalize.cross
              ⟨0, 1, 0⟩).normalize.cross
            ((⟨-1, 0, 0⟩ : Vec3).sub ⟨0, 0, 0⟩).normalize)
          ((⟨-1, 0, 0⟩ : Vec3).sub ⟨0, 0, 0⟩).normalize) ∧
      ∀ (t' : TransformationMatrix) (ops : List Op),
        t'.matrix_ =
          (TransformationMatrix.new.lookAt ⟨0, 0, 0⟩ ⟨-1, 0, 0⟩
            ⟨0, 1, 0⟩).matrix_ →
          (applyOps t' ops).matrix_ =
            (applyOps (TransformationMatrix.new.lookAt ⟨0, 0, 0⟩ ⟨-1, 0, 0⟩
              ⟨0, 1, 0⟩) ops).matrix_) := by
  have hne : (⟨-1, 0, 0⟩ : Vec3) ≠ (⟨0, 0, 0⟩ : Vec3) := by
    intro h
    have hx := congrArg Vec3.x h
    norm_num at hx
  have hcr : ((⟨-1, 0, 0⟩ : Vec3).sub ⟨0, 0, 0⟩).normalize.cross ⟨0, 1, 0⟩ ≠
      (⟨0, 0, 0⟩ : Vec3) := by
    intro h
    have hz := congrArg Vec3.z h
    norm_num [Vec3.sub, Vec3.normalize, Vec3.magnitude, Vec3.cross,
      Real.sqrt_one] at hz
  exact ⟨hne, hcr, lookAt_only_translates TransformationMatrix.new _ _ _ hne hcr⟩

/-- C1: the claimed behavior fails on the code.  At eye = (0,0,0),
center = (-1,0,0), up = (0,1,0) on a fresh instance, the internal field
`matrix_` after `lookAt` is the identity (only the translation by -eye = 0
was composed), the orientation product went to the stray `matrix` property,
and the value the claim requires for `matrix_` — (M × O) × T(-eye) — differs
from what `matrix_` actually holds. -/
theorem lookAt_orientation_dropped :
    (TransformationMatrix.new.lookAt ⟨0, 0, 0⟩ ⟨-1, 0, 0⟩ ⟨0, 1, 0⟩).matrix_ = 1 ∧
    (TransformationMatrix.new.lookAt ⟨0, 0, 0⟩ ⟨-1, 0, 0⟩ ⟨0, 1, 0⟩).matrix =
      some (lookAtOrientMat ⟨0, 0, -1⟩ ⟨0, 1, 0⟩ ⟨-1, 0, 0⟩) ∧
    TransformationMatrix.new.matrix_ *
        lookAtOrientMat ⟨0, 0, -1⟩ ⟨0, 1, 0⟩ ⟨-1, 0, 0⟩ *
        translationMat (-(Vec3.mk 0 0 0).x) (-(Vec3.mk 0 0 0).y)
          (-(Vec3.mk 0 0 0).z) ≠
      (TransformationMatrix.new.lookAt ⟨0, 0, 0⟩ ⟨-1, 0, 0⟩ ⟨0, 1, 0⟩).matrix_ := by
  have e1 : ((⟨-1, 0, 0⟩ : Vec3).sub ⟨0, 0, 0⟩) = (⟨-1, 0, 0⟩ : Vec3) := by
    norm_num [Vec3.sub, Vec3.mk.injEq]
  have e2 : (⟨-1, 0, 0⟩ : Vec3).normalize = (⟨-1, 0, 0⟩ : Vec3) := by
    norm_num [Vec3.normalize, Vec3.magnitude, Real.sqrt_one, Vec3.mk.injEq]
  have e3 : (⟨-1, 0, 0⟩ : Vec3).cross ⟨0, 1, 0⟩ = (⟨0, 0, -1⟩ : Vec3) := by
    norm_num [Vec3.cross, Vec3.mk.injEq]
  have e4 : (⟨0, 0, -1⟩ : Vec3).normalize = (⟨0, 0, -1⟩ : Vec3) := by
    norm_num [Vec3.normalize, Vec3.magnitude, Real.sqrt_one, Vec3.mk.injEq]
  have e5 : (⟨0, 0, -1⟩ : Vec3).cross ⟨-1, 0, 0⟩ = (⟨0, 1, 0⟩ : Vec3) := by
    norm_num [Vec3.cross, Vec3.mk.injEq]
  have h1 : (TransformationMatrix.new.lookAt ⟨0, 0, 0⟩ ⟨-1, 0, 0⟩
      ⟨0, 1, 0⟩).matrix_ = 1 := by
    show (1 : Matrix (Fin 4) (Fin 4) ℝ) * translationMat (-(0:ℝ)) (-0) (-0) = 1
    rw [one_mul, show (-(0:ℝ)) = 0 by norm_num]
    ext i j
    fin_cases i <;> fin_cases j <;> rfl
  refine ⟨h1, ?_, ?_⟩
  · rw [lookAt_matrix_field, e1, e2, e3, e4, e5, new_matrix_, one_mul]
  · rw [h1, new_matrix_, one_mul]
    intro hEq
    have h00 := Matrix.ext_iff.mpr hEq 0 0
    simp [lookAtOrientMat, translationMat, Matrix.mul_apply, Fin.sum_univ_four,
      Matrix.one_apply, Matrix.vecHead, Matrix.vecTail] at h00


end WE
